import Mathlib

/-!
Shallow embedding of `src/utils/core/client.py` (class `Client`): the
transaction lifecycle engine of the repository.  Pure computations
(`get_priotiry_fee`, the pricing fields of `prepare_transaction`) are
translated directly; the RPC interactions are modelled by passing their
results in as explicit arguments (gas-estimation result, broadcast result,
and a stream `polls : ℕ → PollResult` giving the outcome of the i-th
`get_transaction_receipt` call); the unbounded `while True` confirmation
loop is modelled with explicit fuel, `none` meaning "still looping after
`fuel` iterations".  Python ints are ℤ/ℕ; the float arithmetic
`x * 1.5`, `sum / divisor` and `round` are modelled exactly over ℚ
(1.5 = 3/2 is exactly representable; `round` is round-half-to-even).
-/

/-- Outcome of one `get_transaction_receipt` call inside the polling loop of
`send_transaction`: a receipt whose `.get("status")` is `some s` or `none`
(key absent / null), a `TransactionNotFound` exception, or any other
exception (the generic `except Exception` branch). -/
inductive PollResult where
  | receipt (status : Option ℤ)
  | notFound
  | rpcError
deriving DecidableEq

/-- Terminal outcome of the confirmation polling loop.  `confirmedHash` /
`confirmedTrue` are the `return tx_hash` / `return True` paths,
`onChainFailed` is the `return SoftwareException(...)` path (a returned
value, not a raised exception), `timedOut` is the `raise TimeExhausted`
path (re-wrapped by the outer handler into a `BlockchainException`). -/
inductive LoopOutcome where
  | confirmedHash
  | confirmedTrue
  | onChainFailed
  | timedOut
deriving DecidableEq

/-- The `while True` loop of `send_transaction` (client.py lines 140-165).
Arguments after the stream: accumulated `total_time`, poll index, fuel.
Mirrors the source exactly: a receipt with `status == 1` returns success,
`status is None` sleeps and retries (no time is accumulated), any other
status returns a `SoftwareException` value; `TransactionNotFound` checks
`total_time > timeout` BEFORE accumulating `poll_latency`; the generic
exception branch accumulates `poll_latency` with no timeout check. -/
def confirmation_poll_loop (need_hash : Bool) (poll_latency timeout : ℕ)
    (polls : ℕ → PollResult) : ℕ → ℕ → ℕ → Option LoopOutcome
  | _, _, 0 => none
  | total_time, i, fuel + 1 =>
    match polls i with
    | PollResult.receipt (some status) =>
        if status = 1 then
          some (if need_hash then LoopOutcome.confirmedHash else LoopOutcome.confirmedTrue)
        else
          some LoopOutcome.onChainFailed
    | PollResult.receipt none =>
        confirmation_poll_loop need_hash poll_latency timeout polls total_time (i + 1) fuel
    | PollResult.notFound =>
        if total_time > timeout then some LoopOutcome.timedOut
        else confirmation_poll_loop need_hash poll_latency timeout polls
          (total_time + poll_latency) (i + 1) fuel
    | PollResult.rpcError =>
        confirmation_poll_loop need_hash poll_latency timeout polls
          (total_time + poll_latency) (i + 1) fuel

/-- A Python exception as seen by `Client.get_normalize_error`:
`structured m` is an error whose `args[0]` is a dict holding a
`'message'` entry `m`; `plain t` is any other exception (including a dict
without a `'message'` key, for which `dict.get` returns the default,
namely the error itself), with display text `t`. -/
inductive PyError where
  | structured (message : String)
  | plain (text : String)
deriving DecidableEq

/-- `Client.get_normalize_error` (client.py lines 40-46): unwrap a
structured RPC error payload to its `message` string, otherwise return the
error object itself. -/
def get_normalize_error : PyError → String ⊕ PyError
  | PyError.structured m => Sum.inl m
  | e => Sum.inr e

/-- Display text of an error, as produced by the f-string
interpolation `f'{...}'` applied to the result of `get_normalize_error`. -/
def normalizeErrorText (e : PyError) : String :=
  match get_normalize_error e with
  | Sum.inl m => m
  | Sum.inr (PyError.structured m) => m
  | Sum.inr (PyError.plain t) => t

/-- The test `self.get_normalize_error(error) == 'already known'`
(client.py line 130): true exactly when normalization yielded the string
`'already known'`; a Python exception object never equals a string. -/
def isAlreadyKnown (e : PyError) : Bool :=
  match get_normalize_error e with
  | Sum.inl m => m == "already known"
  | Sum.inr _ => false

/-- Overall outcome of `send_transaction`: `hash h` is `return tx_hash`,
`ok` is `return True`, `softError h` is the returned (not raised)
`SoftwareException` describing the failed transaction `h`, and
`blockchainError m` is a raised `BlockchainException` carrying message `m`. -/
inductive SendResult where
  | hash (h : String)
  | ok
  | softError (h : String)
  | blockchainError (m : String)
deriving DecidableEq

/-- Message of the `TimeExhausted` error raised when the not-yet-visible
budget (hardcoded to 1200 inside `send_transaction`) is exceeded, as
re-wrapped by the outer `BlockchainException` handler. -/
def timeExhaustedMessage : String :=
  "Транзакция отсутствует в цепочке после 1200 секунд"

/-- `Client.send_transaction` (client.py lines 119-166).  `gas_result` is
the outcome of `estimate_gas` (skipped when `without_gas`), `broadcast`
the combined outcome of signing plus `send_raw_transaction` (carrying the
transaction hash on success).  Note that the body overwrites the caller's
`timeout` parameter with 1200 before the loop starts, exactly as the
source does (`timeout = 1200`). -/
def send_transaction (without_gas : Bool) (gas_result : Except PyError Unit)
    (broadcast : Except PyError String) (need_hash : Bool)
    (polls : ℕ → PollResult) (poll_latency timeout fuel : ℕ) : Option SendResult :=
  match (if without_gas then Except.ok () else gas_result) with
  | Except.error e => some (SendResult.blockchainError (normalizeErrorText e))
  | Except.ok _ =>
    match broadcast with
    | Except.error e =>
        if isAlreadyKnown e then some SendResult.ok
        else some (SendResult.blockchainError (normalizeErrorText e))
    | Except.ok tx_hash =>
        let timeout := 1200
        match confirmation_poll_loop need_hash poll_latency timeout polls 0 0 fuel with
        | none => none
        | some LoopOutcome.confirmedHash => some (SendResult.hash tx_hash)
        | some LoopOutcome.confirmedTrue => some SendResult.ok
        | some LoopOutcome.onChainFailed => some (SendResult.softError tx_hash)
        | some LoopOutcome.timedOut => some (SendResult.blockchainError timeExhaustedMessage)

/-- Python's built-in `round` on the exact value of a number: round to the
nearest integer, ties to the even neighbour (banker's rounding). -/
def pythonRound (q : ℚ) : ℤ :=
  if q - ⌊q⌋ < 1 / 2 then ⌊q⌋
  else if 1 / 2 < q - ⌊q⌋ then ⌊q⌋ + 1
  else if ⌊q⌋ % 2 = 0 then ⌊q⌋ else ⌊q⌋ + 1

/-- The list comprehension
`[fee[0] for fee in fee_history["reward"] if fee[0] != 0]` of
`Client.get_priotiry_fee` (client.py line 91): the first (and only, since
one percentile is requested) reward of every block whose first reward is
non-zero.  `fee[0]` is modelled by `List.headI`; `fee_history` always
returns one reward per block for the single requested percentile, so the
inner lists are non-empty wherever the Python code does not crash. -/
def non_empty_block_priority_fees (reward : List (List ℤ)) : List ℤ :=
  (reward.filter (fun fee => fee.headI != 0)).map List.headI

/-- `divisor_priority = max(len(non_empty_block_priority_fees), 1)`
(client.py line 93). -/
def divisor_priority (reward : List (List ℤ)) : ℕ :=
  max (non_empty_block_priority_fees reward).length 1

/-- `Client.get_priotiry_fee` (client.py lines 89-97):
`int(round(sum(non_empty_block_priority_fees) / divisor_priority))`,
the float division modelled exactly over ℚ. -/
def get_priotiry_fee (reward : List (List ℤ)) : ℤ :=
  pythonRound (((non_empty_block_priority_fees reward).sum : ℚ) /
    (divisor_priority reward : ℚ))

/-- Python's `int(...)` applied to a (here exact) float: truncation toward
zero. -/
def pyInt (q : ℚ) : ℤ := if 0 ≤ q then ⌊q⌋ else ⌈q⌉

/-- The `tx_params` dict assembled by `Client.prepare_transaction`
(client.py lines 100-115).  The `'type'` entry holds the string `'0x2'`.
Fields absent from the dict are `none`. -/
structure TxParams where
  nonce : ℕ
  value : ℤ
  chainId : ℕ
  maxPriorityFeePerGas : Option ℤ := none
  maxFeePerGas : Option ℤ := none
  type : Option String := none
  gasPrice : Option ℤ := none
deriving DecidableEq

/-- `Client.prepare_transaction` (client.py lines 99-117), success path.
`gas_price` is the value returned by the `self.w3.eth.gas_price` RPC
(bound to the local `base_fee` in the EIP-1559 branch), `reward` the
fee-history window consumed by `get_priotiry_fee`.  The float products
`max_fee_per_gas * 1.5` and `gas_price * 1.5` are modelled exactly as
multiplication by 3/2 over ℚ followed by `int` truncation. -/
def prepare_transaction (eip1559_support : Bool) (nonce chainId : ℕ)
    (gas_price : ℤ) (reward : List (List ℤ)) (value : ℤ) : TxParams :=
  let tx_params : TxParams := { nonce := nonce, value := value, chainId := chainId }
  if eip1559_support then
    let base_fee := gas_price
    let max_priority_fee_per_gas := get_priotiry_fee reward
    let max_fee_per_gas := base_fee + max_priority_fee_per_gas
    { tx_params with
        maxPriorityFeePerGas := some max_priority_fee_per_gas
        maxFeePerGas := some (pyInt ((max_fee_per_gas : ℚ) * (3 / 2)))
        type := some "0x2" }
  else
    { tx_params with gasPrice := some (pyInt ((gas_price : ℚ) * (3 / 2))) }

/-- The endpoint-related state of a `Client`: the network's endpoint list
`network.rpc`, the endpoint recorded in `self.rpc` (chosen at
construction and never updated afterwards), and the endpoint the live
`AsyncWeb3` connection `self.w3` actually points to. -/
structure ClientRpcState where
  networkRpc : List String
  rpc : String
  w3Rpc : String
deriving DecidableEq

/-- `Client.change_rpc` (client.py lines 48-58).  `random.choice` is
modelled by selecting index `k % length`; `none` models the uncaught
`IndexError` that `random.choice` raises on an empty candidate list.  The
boolean is `true` when a swap was performed (success logged) and `false`
when the network holds a single endpoint (failure logged, no raise).
Exactly as in the source, `self.rpc` is NOT updated: only the connection
(`w3Rpc`) is replaced. -/
def change_rpc (s : ClientRpcState) (k : ℕ) : Option (ClientRpcState × Bool) :=
  if s.networkRpc.length ≠ 1 then
    let rpcs_list := s.networkRpc.filter (fun r => r != s.rpc)
    match rpcs_list.get? (k % rpcs_list.length) with
    | some new_rpc => some ({ s with w3Rpc := new_rpc }, true)
    | none => none
  else
    some (s, false)

set_option maxRecDepth 8000

/-- Helper: `pythonRound` always lands on a nearest integer. -/
theorem pythonRound_nearest (q : ℚ) : |(pythonRound q : ℚ) - q| ≤ 1 / 2 := by
  have h0 : (⌊q⌋ : ℚ) ≤ q := Int.floor_le q
  have h1 : q < ⌊q⌋ + 1 := Int.lt_floor_add_one q
  unfold pythonRound
  split_ifs with h2 h3 h4
  · rw [abs_le]
    constructor <;> linarith
  · rw [abs_le]
    push_cast
    constructor <;> linarith
  · rw [abs_le]
    push_neg at h2 h3
    constructor <;> linarith
  · rw [abs_le]
    push_neg at h2 h3
    push_cast
    constructor <;> linarith

/-- Helper: on a run where every receipt lookup raises `TransactionNotFound`,
once the accumulated time exceeds the budget the next iteration raises
`TimeExhausted`. -/
theorem poll_loop_notFound_exceeds (need_hash : Bool) (poll_latency timeout : ℕ) :
    ∀ fuel total_time i, timeout < total_time + fuel * poll_latency →
      confirmation_poll_loop need_hash poll_latency timeout (fun _ => PollResult.notFound)
        total_time i (fuel + 1) = some LoopOutcome.timedOut := by
  intro fuel
  induction fuel with
  | zero =>
      intro t i h
      rw [Nat.zero_mul, Nat.add_zero] at h
      simp [confirmation_poll_loop, h]
  | succ f ih =>
      intro t i h
      by_cases ht : t > timeout
      · simp [confirmation_poll_loop, ht]
      · have hstep : confirmation_poll_loop need_hash poll_latency timeout
            (fun _ => PollResult.notFound) t i (f + 1 + 1) =
            confirmation_poll_loop need_hash poll_latency timeout
              (fun _ => PollResult.notFound) (t + poll_latency) (i + 1) (f + 1) := by
          simp [confirmation_poll_loop, ht]
        rw [hstep]
        apply ih
        have hd : (f + 1) * poll_latency = f * poll_latency + poll_latency := by ring
        rw [hd] at h
        linarith

/-- Helper: on an all-`TransactionNotFound` run the loop can only still be
running or have raised `TimeExhausted`. -/
theorem poll_loop_notFound_cases (need_hash : Bool) (poll_latency timeout : ℕ) :
    ∀ fuel total_time i,
      confirmation_poll_loop need_hash poll_latency timeout (fun _ => PollResult.notFound)
          total_time i fuel = none ∨
      confirmation_poll_loop need_hash poll_latency timeout (fun _ => PollResult.notFound)
          total_time i fuel = some LoopOutcome.timedOut := by
  intro fuel
  induction fuel with
  | zero => intro t i; left; rfl
  | succ f ih =>
      intro t i
      by_cases ht : t > timeout
      · right
        simp [confirmation_poll_loop, ht]
      · have hstep : confirmation_poll_loop need_hash poll_latency timeout
            (fun _ => PollResult.notFound) t i (f + 1) =
            confirmation_poll_loop need_hash poll_latency timeout
              (fun _ => PollResult.notFound) (t + poll_latency) (i + 1) f := by
          simp [confirmation_poll_loop, ht]
        rw [hstep]
        exact ih _ _

/-- Helper: a run in which every receipt lookup raises a generic (non
`TransactionNotFound`) exception never leaves the loop, whatever the fuel,
the accumulated time and the budget. -/
theorem poll_loop_rpcError_never_ends (need_hash : Bool) (poll_latency timeout : ℕ) :
    ∀ fuel total_time i,
      confirmation_poll_loop need_hash poll_latency timeout (fun _ => PollResult.rpcError)
        total_time i fuel = none := by
  intro fuel
  induction fuel with
  | zero => intro t i; rfl
  | succ f ih =>
      intro t i
      have hstep : confirmation_poll_loop need_hash poll_latency timeout
          (fun _ => PollResult.rpcError) t i (f + 1) =
          confirmation_poll_loop need_hash poll_latency timeout
            (fun _ => PollResult.rpcError) (t + poll_latency) (i + 1) f := by
        simp [confirmation_poll_loop]
      rw [hstep]
      exact ih _ _

/-- C1: a poll that finds a receipt with success status (`status == 1`)
immediately terminates the loop with the confirmed outcome — the hash when
the caller asked for it, `True` otherwise — for every accumulated
not-yet-visible time and every budget, i.e. before and independently of
any budget check; through `send_transaction` this surfaces as the
transaction hash resp. `True`. -/
theorem poll_status_one_confirms (need_hash : Bool) (poll_latency timeout : ℕ)
    (polls : ℕ → PollResult) (total_time i fuel : ℕ) (tx_hash : String)
    (hs : polls i = PollResult.receipt (some 1)) :
    confirmation_poll_loop need_hash poll_latency timeout polls total_time i (fuel + 1) =
      some (if need_hash then LoopOutcome.confirmedHash else LoopOutcome.confirmedTrue) ∧
    (polls 0 = PollResult.receipt (some 1) →
      send_transaction false (Except.ok ()) (Except.ok tx_hash) true polls
          poll_latency timeout (fuel + 1) = some (SendResult.hash tx_hash) ∧
      send_transaction false (Except.ok ()) (Except.ok tx_hash) false polls
          poll_latency timeout (fuel + 1) = some SendResult.ok) := by
  constructor
  · simp [confirmation_poll_loop, hs]
  · intro h0
    constructor <;> simp [send_transaction, confirmation_poll_loop, h0]

/-- Witness for C1 at a concrete input: even with 5000 s already
accumulated against a 120 s budget, a success receipt confirms at once. -/
theorem poll_status_one_confirms_witness :
    (fun _ : ℕ => PollResult.receipt (some 1)) 0 = PollResult.receipt (some 1) ∧
    confirmation_poll_loop true 10 120 (fun _ => PollResult.receipt (some 1)) 5000 0 1 =
      some LoopOutcome.confirmedHash := by
  refine ⟨rfl, ?_⟩
  have h := poll_status_one_confirms true 10 120 (fun _ => PollResult.receipt (some 1))
    5000 0 0 "0xabc" rfl
  simpa using h.1

/-- C2: if the receipt stays invisible (every lookup raises
`TransactionNotFound`), the loop terminates with the time-exhaustion
outcome once the accumulated time passes the budget, and such a run can
never produce a confirmed outcome; concretely, with a 10 s interval and a
120 s budget the 14th failed lookup (130 s accumulated) times out. -/
theorem poll_not_found_times_out (need_hash : Bool) (poll_latency timeout : ℕ)
    (hlat : 0 < poll_latency) :
    (∃ fuel, confirmation_poll_loop need_hash poll_latency timeout
        (fun _ => PollResult.notFound) 0 0 fuel = some LoopOutcome.timedOut) ∧
    (∀ fuel total_time i,
      confirmation_poll_loop need_hash poll_latency timeout (fun _ => PollResult.notFound)
          total_time i fuel ≠ some LoopOutcome.confirmedHash ∧
      confirmation_poll_loop need_hash poll_latency timeout (fun _ => PollResult.notFound)
          total_time i fuel ≠ some LoopOutcome.confirmedTrue) ∧
    confirmation_poll_loop need_hash 10 120 (fun _ => PollResult.notFound) 0 0 14 =
      some LoopOutcome.timedOut := by
  refine ⟨⟨timeout + 2, ?_⟩, ?_, ?_⟩
  · apply poll_loop_notFound_exceeds
    have h1 : (timeout + 1) * 1 ≤ (timeout + 1) * poll_latency :=
      Nat.mul_le_mul_left _ hlat
    have h2 : (timeout + 1) * 1 = timeout + 1 := by ring
    linarith
  · intro fuel t i
    rcases poll_loop_notFound_cases need_hash poll_latency timeout fuel t i with h | h <;>
      exact ⟨by simp [h], by simp [h]⟩
  · cases need_hash <;> decide

/-- Witness for C2 at a concrete input. -/
theorem poll_not_found_times_out_witness :
    0 < 10 ∧
    confirmation_poll_loop false 10 120 (fun _ => PollResult.notFound) 0 0 14 =
      some LoopOutcome.timedOut :=
  ⟨by decide, (poll_not_found_times_out false 10 120 (by decide)).2.2⟩

/-- C3 counterexample: a poll loop in which every lookup raises a generic
RPC error does NOT terminate once the budget is exceeded — after 200
error polls at a 10 s interval (2000 s accumulated against a 120 s
budget) it is still running, and likewise after 500. -/
theorem poll_rpc_error_no_timeout_check :
    confirmation_poll_loop false 10 120 (fun _ => PollResult.rpcError) 0 0 200 = none ∧
    confirmation_poll_loop false 10 120 (fun _ => PollResult.rpcError) 0 0 500 = none :=
  ⟨poll_loop_rpcError_never_ends false 10 120 200 0 0,
   poll_loop_rpcError_never_ends false 10 120 500 0 0⟩

/-- C3 amended: each generic query error accumulates one poll interval
against the same not-yet-visible counter, but the budget is only checked
when a lookup raises `TransactionNotFound`; hence a run of exclusively
generic errors never terminates, while a `TransactionNotFound` lookup
occurring after the budget has been exceeded by error time terminates the
loop with the time-exhaustion outcome (concretely: 13 error polls at 10 s
against a 120 s budget followed by one not-found poll time out). -/
theorem poll_rpc_error_budget_amended (need_hash : Bool)
    (poll_latency timeout total_time i fuel : ℕ) :
    confirmation_poll_loop need_hash poll_latency timeout (fun _ => PollResult.rpcError)
        total_time i (fuel + 1) =
      confirmation_poll_loop need_hash poll_latency timeout (fun _ => PollResult.rpcError)
        (total_time + poll_latency) (i + 1) fuel ∧
    confirmation_poll_loop need_hash poll_latency timeout (fun _ => PollResult.rpcError)
        total_time i fuel = none ∧
    confirmation_poll_loop false 10 120
        (fun j => if j < 13 then PollResult.rpcError else PollResult.notFound) 0 0 14 =
      some LoopOutcome.timedOut := by
  refine ⟨by simp [confirmation_poll_loop], poll_loop_rpcError_never_ends _ _ _ _ _ _, by decide⟩

/-- C4: the priority-fee estimate is a nearest integer to the arithmetic
mean of the non-zero first-percentile reward samples; an empty or all-zero
window yields 0 (the divisor is floored at 1, no division by zero); the
window `[[5], [0], [3], [0]]` yields 4. -/
theorem get_priotiry_fee_mean (reward : List (List ℤ)) :
    (non_empty_block_priority_fees reward ≠ [] →
      |(get_priotiry_fee reward : ℚ) -
          ((non_empty_block_priority_fees reward).sum : ℚ) /
            ((non_empty_block_priority_fees reward).length : ℚ)| ≤ 1 / 2) ∧
    (non_empty_block_priority_fees reward = [] → get_priotiry_fee reward = 0) ∧
    get_priotiry_fee [[5], [0], [3], [0]] = 4 := by
  refine ⟨?_, ?_, ?_⟩
  · intro hne
    have hlen : 1 ≤ (non_empty_block_priority_fees reward).length :=
      List.length_pos.mpr hne
    have hdiv : divisor_priority reward = (non_empty_block_priority_fees reward).length :=
      Nat.max_eq_left hlen
    rw [get_priotiry_fee, hdiv]
    exact pythonRound_nearest _
  · intro he
    rw [get_priotiry_fee, divisor_priority, he]
    norm_num [pythonRound]
  · norm_num [get_priotiry_fee, non_empty_block_priority_fees, divisor_priority,
      pythonRound, List.headI]

/-- Witness for C4 at the concrete window `[[5], [0], [3], [0]]`. -/
theorem get_priotiry_fee_mean_witness :
    non_empty_block_priority_fees [[5], [0], [3], [0]] ≠ [] ∧
    |(get_priotiry_fee [[5], [0], [3], [0]] : ℚ) -
        ((non_empty_block_priority_fees [[5], [0], [3], [0]]).sum : ℚ) /
          ((non_empty_block_priority_fees [[5], [0], [3], [0]]).length : ℚ)| ≤ 1 / 2 := by
  have hne : non_empty_block_priority_fees [[5], [0], [3], [0]] ≠ [] := by decide
  exact ⟨hne, (get_priotiry_fee_mean [[5], [0], [3], [0]]).1 hne⟩

/-- C5: a built transaction populates exactly one pricing shape, selected
solely by the network's priority-fee flag: with the flag set, the triple
maxPriorityFeePerGas / maxFeePerGas / type = "0x2" and no gasPrice; with
the flag unset, only gasPrice, equal to the network gas price scaled by
1.5 and truncated to an integer. -/
theorem prepare_transaction_pricing_shapes (eip1559_support : Bool) (nonce chainId : ℕ)
    (gas_price : ℤ) (reward : List (List ℤ)) (value : ℤ) :
    (eip1559_support = true →
      (prepare_transaction eip1559_support nonce chainId gas_price reward value).maxPriorityFeePerGas =
        some (get_priotiry_fee reward) ∧
      (prepare_transaction eip1559_support nonce chainId gas_price reward value).maxFeePerGas =
        some (pyInt (((gas_price + get_priotiry_fee reward : ℤ) : ℚ) * (3 / 2))) ∧
      (prepare_transaction eip1559_support nonce chainId gas_price reward value).type =
        some "0x2" ∧
      (prepare_transaction eip1559_support nonce chainId gas_price reward value).gasPrice =
        none) ∧
    (eip1559_support = false →
      (prepare_transaction eip1559_support nonce chainId gas_price reward value).gasPrice =
        some (pyInt ((gas_price : ℚ) * (3 / 2))) ∧
      (prepare_transaction eip1559_support nonce chainId gas_price reward value).maxPriorityFeePerGas =
        none ∧
      (prepare_transaction eip1559_support nonce chainId gas_price reward value).maxFeePerGas =
        none ∧
      (prepare_transaction eip1559_support nonce chainId gas_price reward value).type =
        none) := by
  constructor <;> intro h <;> subst h <;> simp [prepare_transaction]

/-- Witness for C5 at concrete inputs, one per branch of the flag. -/
theorem prepare_transaction_pricing_shapes_witness :
    (prepare_transaction true 0 1 100 [[5], [0], [3], [0]] 0).gasPrice = none ∧
    (prepare_transaction false 0 1 100 [[5], [0], [3], [0]] 0).maxFeePerGas = none :=
  ⟨((prepare_transaction_pricing_shapes true 0 1 100 [[5], [0], [3], [0]] 0).1 rfl).2.2.2,
   ((prepare_transaction_pricing_shapes false 0 1 100 [[5], [0], [3], [0]] 0).2 rfl).2.2.1⟩

/-- C6: in the priority-fee branch, maxFeePerGas is the truncation of
(base fee + priority fee) × 1.5, the multiplier being applied to the sum;
with base fee 100 and window `[[5], [0], [3], [0]]` (priority fee 4) this
gives int(104 × 1.5) = 156. -/
theorem prepare_transaction_max_fee (nonce chainId : ℕ) (gas_price : ℤ)
    (reward : List (List ℤ)) (value : ℤ) :
    (prepare_transaction true nonce chainId gas_price reward value).maxFeePerGas =
      some (pyInt (((gas_price + get_priotiry_fee reward : ℤ) : ℚ) * (3 / 2))) ∧
    (prepare_transaction true 0 1 100 [[5], [0], [3], [0]] 0).maxFeePerGas = some 156 := by
  constructor
  · simp [prepare_transaction]
  · norm_num [prepare_transaction, get_priotiry_fee, non_empty_block_priority_fees,
      divisor_priority, pythonRound, pyInt, List.headI]

/-- C7: a signing/broadcast failure whose normalized message is exactly
"already known" makes `send_transaction` return plain success (`True`,
no transaction hash); any other signing/broadcast failure raises a
`BlockchainException` carrying the normalized message. -/
theorem send_broadcast_error_handling (without_gas : Bool) (gas_result : Except PyError Unit)
    (need_hash : Bool) (polls : ℕ → PollResult) (poll_latency timeout fuel : ℕ) (e : PyError)
    (hok : without_gas = true ∨ gas_result = Except.ok ()) :
    send_transaction without_gas gas_result (Except.error e) need_hash polls
        poll_latency timeout fuel =
      (if isAlreadyKnown e then some SendResult.ok
       else some (SendResult.blockchainError (normalizeErrorText e))) := by
  rcases hok with h | h
  · subst h
    simp [send_transaction]
  · subst h
    cases without_gas <;> simp [send_transaction]

/-- Witness for C7: a broadcast failure normalizing to "already known"
(with `need_hash = false` irrelevant: no hash is ever returned). -/
theorem send_broadcast_error_handling_witness :
    send_transaction true (Except.ok ()) (Except.error (PyError.structured "already known"))
        false (fun _ => PollResult.notFound) 10 360 5 = some SendResult.ok := by
  have h := send_broadcast_error_handling true (Except.ok ()) false
    (fun _ => PollResult.notFound) 10 360 5 (PyError.structured "already known") (Or.inl rfl)
  rw [h]
  decide

/-- C8: a receipt whose status is present but not 1 (0 or any non-standard
value) terminates the loop by RETURNING the on-chain-failure outcome — at
`send_transaction` level a returned `SoftwareException` value, a
constructor distinct from the raised `BlockchainException`. -/
theorem poll_failed_status_returned (need_hash : Bool) (poll_latency timeout : ℕ)
    (polls : ℕ → PollResult) (total_time i fuel : ℕ) (s : ℤ) (tx_hash : String)
    (hs : polls i = PollResult.receipt (some s)) (hne : s ≠ 1) :
    confirmation_poll_loop need_hash poll_latency timeout polls total_time i (fuel + 1) =
      some LoopOutcome.onChainFailed ∧
    (polls 0 = PollResult.receipt (some s) →
      send_transaction false (Except.ok ()) (Except.ok tx_hash) need_hash polls
          poll_latency timeout (fuel + 1) = some (SendResult.softError tx_hash)) ∧
    (∀ m, SendResult.softError tx_hash ≠ SendResult.blockchainError m) := by
  refine ⟨?_, ?_, ?_⟩
  · simp [confirmation_poll_loop, hs, hne]
  · intro h0
    simp [send_transaction, confirmation_poll_loop, h0, hne]
  · intro m
    simp

/-- Witness for C8 at status 0. -/
theorem poll_failed_status_returned_witness :
    confirmation_poll_loop false 10 120 (fun _ => PollResult.receipt (some 0)) 0 0 1 =
      some LoopOutcome.onChainFailed := by
  have h := poll_failed_status_returned false 10 120 (fun _ => PollResult.receipt (some 0))
    0 0 0 0 "0xabc" rfl (by decide)
  simpa using h.1

/-- C9 (evaluating the code at the failing input): with endpoint list
["a", "b"], a first swap moves the connection to "b" but leaves
`self.rpc` = "a"; the next swap filters against the stale "a" and
re-selects "b" — the endpoint that is already active — while reporting
success, contradicting the claim that with more than one endpoint the
newly active endpoint differs from the currently active one. -/
theorem change_rpc_reselects_active_endpoint :
    change_rpc ⟨["a", "b"], "a", "a"⟩ 0 = some (⟨["a", "b"], "a", "b"⟩, true) ∧
    change_rpc ⟨["a", "b"], "a", "b"⟩ 0 = some (⟨["a", "b"], "a", "b"⟩, true) := by
  constructor <;> decide

/-- C10: the caller-supplied timeout argument of `send_transaction` has no
effect — the body overwrites it with 1200 before polling; concretely,
with the receipt never visible and a 10 s interval, even a caller timeout
of 360 leaves the loop running after 121 polls (1210 s) and the
termination happens at poll 122, matching a 1200 s budget. -/
theorem send_transaction_timeout_ignored (without_gas : Bool) (gas_result : Except PyError Unit)
    (broadcast : Except PyError String) (need_hash : Bool) (polls : ℕ → PollResult)
    (poll_latency t1 t2 fuel : ℕ) :
    send_transaction without_gas gas_result broadcast need_hash polls poll_latency t1 fuel =
      send_transaction without_gas gas_result broadcast need_hash polls poll_latency t2 fuel ∧
    send_transaction true (Except.ok ()) (Except.ok "0xabc") false
      (fun _ => PollResult.notFound) 10 360 121 = none ∧
    send_transaction true (Except.ok ()) (Except.ok "0xabc") false
        (fun _ => PollResult.notFound) 10 360 122 =
      some (SendResult.blockchainError timeExhaustedMessage) := by
  refine ⟨rfl, by decide, by decide⟩
